import Mathlib

/-!
Verification of the AIO desktop backend (`src/frontend/src-tauri/src/main.rs`).

The backend has two parts:
* the Launcher command `launch_game(platform, id, app_name)`, which resolves an
  identifier, builds a platform-specific launch URI and spawns the OS
  "open URI" command, and
* the Instance Guard, which scans process arguments for a deep link
  (an argument beginning with `aio://`) and forwards it to the main window.

We embed `launch_game` as a pure function over an explicit operating-system
tag and a spawn environment, recording the URIs built and the processes
spawned as a trace.  The Instance Guard is not present in the `main`
function of the source snapshot, so it is modelled from the specification.
-/

/-- Operating systems distinguished by the `#[cfg(target_os = ...)]` blocks of
`launch_game`; `other` covers the fall-through
`#[cfg(not(any(windows, macos, linux)))]` block. -/
inductive OS where
  | windows
  | macos
  | linux
  | other
deriving DecidableEq, Repr

/-- Environment for the spawn side effect of `launch_game`.
`spawnErr = some e` means the `Command::spawn` call itself fails with OS
message `e`; `spawnErr = none` means the spawn call succeeds.
`processExit` is the eventual outcome of the spawned external process; the
code never observes it (fire-and-forget). -/
structure SpawnEnv where
  spawnErr : Option String
  processExit : Int
deriving DecidableEq, Repr

deriving instance DecidableEq for Except

/-- Trace of one `launch_game` call: the Rust `Result<String, String>`, the
URIs that were constructed, and the spawn calls attempted as
(program, argument list) pairs. -/
structure LaunchTrace where
  result : Except String String
  built : List String
  spawned : List (String × List String)
deriving DecidableEq, Repr

/-- Line 10 of `main.rs`: `app_name.clone().or(id.clone())` — the identifier
is taken preferentially from `app_name`, falling back to `id`. -/
def resolveIdentifier (id app_name : Option String) : Option String :=
  Option.or app_name id

/-- The common tail of every supported branch: build the URI, attempt the
spawn call, and report `Ok("Started {platform} game")` on spawn success or
`Err("Failed to start game: {e}")` on spawn failure. -/
def spawnStep (env : SpawnEnv) (prog : String) (args : List String)
    (uri platform : String) : LaunchTrace :=
  match env.spawnErr with
  | some e =>
      { result := .error ("Failed to start game: " ++ e)
        built := [uri]
        spawned := [(prog, args)] }
  | none =>
      { result := .ok ("Started " ++ platform ++ " game")
        built := [uri]
        spawned := [(prog, args)] }

/-- The OS-specific blocks of `launch_game` (`#[cfg(target_os = ...)]`,
lines 12–81 of `main.rs`), run with the already-resolved identifier: match
the platform tag, build the URI and spawn the OS open-URI command —
`cmd /C start "" <uri>` on Windows, `open <uri>` on macOS,
`xdg-open <uri>` on Linux. -/
def launchBody (os : OS) (env : SpawnEnv) (platform identifier : String) :
    LaunchTrace :=
  match os with
    | .windows =>
        if platform = "steam" then
          let uri := "steam://rungameid/" ++ identifier
          spawnStep env "cmd" ["/C", "start", "", uri] uri platform
        else if platform = "epic" then
          let uri := "com.epicgames.launcher://apps/" ++ identifier
            ++ "?action=launch&silent=true"
          spawnStep env "cmd" ["/C", "start", "", uri] uri platform
        else if platform = "gog" then
          let uri := "goggalaxy://openGameView/" ++ identifier
          spawnStep env "cmd" ["/C", "start", "", uri] uri platform
        else
          { result := .error ("Unsupported platform: " ++ platform)
            built := [], spawned := [] }
    | .macos =>
        if platform = "steam" then
          let uri := "steam://rungameid/" ++ identifier
          spawnStep env "open" [uri] uri platform
        else if platform = "epic" then
          let uri := "com.epicgames.launcher://apps/" ++ identifier
            ++ "?action=launch"
          spawnStep env "open" [uri] uri platform
        else if platform = "gog" then
          let uri := "goggalaxy://openGameView/" ++ identifier
          spawnStep env "open" [uri] uri platform
        else
          { result := .error ("Unsupported platform: " ++ platform)
            built := [], spawned := [] }
    | .linux =>
        if platform = "steam" then
          let uri := "steam://rungameid/" ++ identifier
          spawnStep env "xdg-open" [uri] uri platform
        else if platform = "epic" then
          { result := .error "Epic Games not well supported on Linux"
            built := [], spawned := [] }
        else if platform = "gog" then
          { result := .error "GOG Galaxy not available on Linux"
            built := [], spawned := [] }
        else
          { result := .error ("Unsupported platform: " ++ platform)
            built := [], spawned := [] }
    | .other =>
        { result := .error "Unsupported operating system"
          built := [], spawned := [] }

/-- Embedding of `launch_game` from `src/frontend/src-tauri/src/main.rs`
(lines 6–82): the identifier is resolved first (line 10, failing with
`"Missing game identifier"`), then the OS-specific block runs. -/
def launch_game (os : OS) (env : SpawnEnv) (platform : String)
    (id app_name : Option String) : LaunchTrace :=
  match resolveIdentifier id app_name with
  | none =>
      { result := .error "Missing game identifier", built := [], spawned := [] }
  | some identifier => launchBody os env platform identifier

/-- The supported (OS, platform) combinations of the §4.1 table: steam on
Windows/macOS/Linux, epic and gog on Windows/macOS only. -/
def supportedCombo (os : OS) (platform : String) : Bool :=
  match os with
  | .windows => platform = "steam" || platform = "epic" || platform = "gog"
  | .macos => platform = "steam" || platform = "epic" || platform = "gog"
  | .linux => platform = "steam"
  | .other => false

/-- `tok` occurs contiguously somewhere in `msg`. -/
def listOccurs (tok msg : List Char) : Bool :=
  match msg with
  | [] => tok.isEmpty
  | c :: t => tok.isPrefixOf (c :: t) || listOccurs tok t

/-- `msg` mentions `tok` when `tok`'s characters occur contiguously in
`msg`'s characters. -/
def mentions (msg tok : String) : Bool :=
  listOccurs tok.data msg.data

/-- A Rust `Result<String, String>` is `Ok`. -/
def resultIsOk : Except String String → Bool
  | .ok _ => true
  | .error _ => false

/-- The deep-link scheme recognized by the Instance Guard. -/
def aioScheme : String := "aio://"

/-- An argument is a deep link when it begins with the `aio://` scheme. -/
def isDeepLink (a : String) : Bool :=
  aioScheme.data.isPrefixOf a.data

/-- Modelled from the spec: the Instance Guard's argument scan is absent from
`src/frontend/src-tauri/src/main.rs` (its `main` only registers the
`launch_game` handler), so §4.2 is followed: "scan the process's own argument
list for any argument beginning with the deep-link prefix; on the first
match, emit an event carrying that argument ..., then stop scanning (only the
first matching argument is used)". -/
def findDeepLink (args : List String) : Option String :=
  args.find? isDeepLink

/-- Observable actions of one Instance Guard scan: the deep-link events
emitted to the main window (each carrying the matched argument) and the
number of focus requests issued on that window. -/
structure GuardActions where
  events : List String
  focusRequests : Nat
deriving DecidableEq, Repr

/-- Modelled from the spec: the startup phase of the Instance Guard (§4.2) —
on the first matching argument, emit one deep-link event to the main window;
no focus request is made at startup; no match means no action. -/
def startupScan (args : List String) : GuardActions :=
  match findDeepLink args with
  | some a => { events := [a], focusRequests := 0 }
  | none => { events := [], focusRequests := 0 }

/-- Modelled from the spec: the second-instance callback of the Instance
Guard (§4.2) — scan the second instance's argument vector first-match-wins;
on match, emit the deep-link event to the main window and request that the
window regain input focus; if no argument matches, no event and no focus
change. -/
def secondInstanceScan (args : List String) : GuardActions :=
  match findDeepLink args with
  | some a => { events := [a], focusRequests := 1 }
  | none => { events := [], focusRequests := 0 }

lemma launch_game_some (os : OS) (env : SpawnEnv) (platform : String)
    (id app_name : Option String) (s : String)
    (hid : resolveIdentifier id app_name = some s) :
    launch_game os env platform id app_name = launchBody os env platform s := by
  unfold launch_game
  rw [hid]

lemma find?_eq_head?_filter (p : α → Bool) (l : List α) :
    l.find? p = (l.filter p).head? := by
  induction l with
  | nil => rfl
  | cons a t ih =>
      by_cases h : p a
      · rw [List.find?_cons_of_pos _ h, List.filter_cons_of_pos h,
          List.head?_cons]
      · rw [List.find?_cons_of_neg _ h, List.filter_cons_of_neg h, ih]

lemma unsupported_msg_ne_missing (p : String) :
    ("Unsupported platform: " ++ p) ≠ "Missing game identifier" := by
  intro h
  have hd : "Unsupported platform: ".data ++ p.data
      = "Missing game identifier".data :=
    (String.data_append _ _) ▸ congrArg String.data h
  have h1 : "Unsupported platform: ".data ++ p.data
      = 'U' :: ("nsupported platform: ".data ++ p.data) := rfl
  have h2 : "Missing game identifier".data
      = 'M' :: "issing game identifier".data := rfl
  rw [h1, h2] at hd
  exact absurd (List.cons.inj hd).1 (by decide)

lemma isPrefixOf_self (l : List Char) : l.isPrefixOf l = true := by
  induction l with
  | nil => rfl
  | cons c t ih => simp [List.isPrefixOf, ih]

lemma listOccurs_append_self (tok : List Char) :
    ∀ pre : List Char, listOccurs tok (pre ++ tok) = true := by
  intro pre
  induction pre with
  | nil =>
      cases tok with
      | nil => rfl
      | cons c t =>
          show ((c :: t).isPrefixOf (c :: t) || listOccurs (c :: t) t) = true
          rw [isPrefixOf_self, Bool.true_or]
  | cons c p ih =>
      show (tok.isPrefixOf (c :: (p ++ tok)) || listOccurs tok (p ++ tok)) = true
      rw [ih, Bool.or_true]

lemma mentions_append_self (pre tok : String) :
    mentions (pre ++ tok) tok = true := by
  unfold mentions
  rw [String.data_append]
  exact listOccurs_append_self _ _

lemma append_ne_of_head (pre p t : String) (c d : Char) (rest1 rest2 : List Char)
    (h1 : pre.data = c :: rest1) (h2 : t.data = d :: rest2) (hcd : c ≠ d) :
    pre ++ p ≠ t := by
  intro he
  have hd : (c :: (rest1 ++ p.data)) = d :: rest2 := by
    have h3 := congrArg String.data he
    rwa [String.data_append, h1, h2, List.cons_append] at h3
  exact hcd (List.cons.inj hd).1

lemma failed_msg_ne_missing (e : String) :
    ("Failed to start game: " ++ e) ≠ "Missing game identifier" :=
  append_ne_of_head _ e _ 'F' 'M' _ _ rfl rfl (by decide)

lemma spawnStep_result_ne_missing (env : SpawnEnv) (prog : String)
    (args : List String) (uri platform : String) :
    (spawnStep env prog args uri platform).result
      ≠ .error "Missing game identifier" := by
  cases henv : env.spawnErr with
  | none => simp [spawnStep, henv]
  | some e =>
      simp only [spawnStep, henv, ne_eq, Except.error.injEq]
      exact failed_msg_ne_missing e

lemma launch_result_ne_missing (os : OS) (env : SpawnEnv) (platform : String)
    (id app_name : Option String) (s : String)
    (hid : resolveIdentifier id app_name = some s) :
    (launch_game os env platform id app_name).result
      ≠ .error "Missing game identifier" := by
  rw [launch_game_some os env platform id app_name s hid]
  cases os <;> simp only [launchBody] <;> try split_ifs
  all_goals
    first
      | exact spawnStep_result_ne_missing env _ _ _ _
      | decide
      | (simp only [ne_eq, Except.error.injEq]
         exact unsupported_msg_ne_missing platform)

/-- C1: for every platform tag in {steam, epic, gog}, every supported OS of
the §4.1 table and every supplied identifier, `launch_game` builds exactly
the documented URI with the identifier substituted verbatim:
`steam://rungameid/<id>` on all three OSes,
`com.epicgames.launcher://apps/<id>?action=launch&silent=true` on Windows and
`...?action=launch` (no silent flag) on macOS for epic, and
`goggalaxy://openGameView/<id>` on Windows and macOS for gog. -/
theorem launch_game_builds_documented_uris (s : String) (env : SpawnEnv)
    (id : Option String) :
    (launch_game .windows env "steam" id (some s)).built
        = ["steam://rungameid/" ++ s]
  ∧ (launch_game .macos env "steam" id (some s)).built
        = ["steam://rungameid/" ++ s]
  ∧ (launch_game .linux env "steam" id (some s)).built
        = ["steam://rungameid/" ++ s]
  ∧ (launch_game .windows env "epic" id (some s)).built
        = ["com.epicgames.launcher://apps/" ++ s ++ "?action=launch&silent=true"]
  ∧ (launch_game .macos env "epic" id (some s)).built
        = ["com.epicgames.launcher://apps/" ++ s ++ "?action=launch"]
  ∧ (launch_game .windows env "gog" id (some s)).built
        = ["goggalaxy://openGameView/" ++ s]
  ∧ (launch_game .macos env "gog" id (some s)).built
        = ["goggalaxy://openGameView/" ++ s] := by
  obtain ⟨e, x⟩ := env
  cases e <;>
    simp [launch_game, resolveIdentifier, Option.or, launchBody, spawnStep,
      String.append_assoc]

/-- C2: whenever both `id` and `app_name` are supplied, the identifier
substituted into the URI template is `app_name`'s value, never `id`'s: the
whole call behaves as if `id` had not been supplied at all, on every OS and
platform. -/
theorem launch_game_app_name_wins (i a : String) (os : OS) (env : SpawnEnv)
    (platform : String) :
    resolveIdentifier (some i) (some a) = some a
  ∧ launch_game os env platform (some i) (some a)
        = launch_game os env platform none (some a) := by
  exact ⟨rfl, rfl⟩

/-- C3: with neither `id` nor `app_name`, `launch_game` returns the
missing-identifier error on every OS and platform, with no URI built and no
process spawned. -/
theorem launch_game_missing_identifier (os : OS) (env : SpawnEnv)
    (platform : String) :
    launch_game os env platform none none
      = { result := .error "Missing game identifier",
          built := [], spawned := [] } := rfl

/-- C4: for every platform tag outside {steam, epic, gog}, every supplied
identifier and every supported OS, `launch_game` fails and the error message
contains the unsupported tag literally. -/
theorem launch_game_unsupported_platform (os : OS) (env : SpawnEnv)
    (platform : String) (id app_name : Option String) (s : String)
    (hos : os ≠ OS.other)
    (h1 : platform ≠ "steam") (h2 : platform ≠ "epic") (h3 : platform ≠ "gog")
    (hid : resolveIdentifier id app_name = some s) :
    (launch_game os env platform id app_name).result
        = .error ("Unsupported platform: " ++ platform)
  ∧ mentions ("Unsupported platform: " ++ platform) platform = true := by
  refine ⟨?_, mentions_append_self _ _⟩
  rw [launch_game_some os env platform id app_name s hid]
  cases os with
  | other => exact absurd rfl hos
  | windows => simp [launchBody, h1, h2, h3]
  | macos => simp [launchBody, h1, h2, h3]
  | linux => simp [launchBody, h1, h2, h3]

/-- Witness for C4 at platform `origin` on Windows with identifier `123`. -/
theorem launch_game_unsupported_platform_witness :
    (launch_game OS.windows ⟨none, 0⟩ "origin" none (some "123")).result
        = .error ("Unsupported platform: " ++ "origin")
  ∧ mentions ("Unsupported platform: " ++ "origin") "origin" = true :=
  launch_game_unsupported_platform OS.windows ⟨none, 0⟩ "origin" none
    (some "123") "123" (by decide) (by decide) (by decide) (by decide) rfl

/-- C5 counterexample: on Linux with platform `epic` and neither identifier
supplied, `launch_game` returns the missing-identifier error, whose message
mentions neither "Epic" nor "Linux" — the claim's "regardless of the
identifier supplied (including when id and app_name are both absent)" fails. -/
theorem epic_linux_error_counterexample :
    (launch_game OS.linux ⟨none, 0⟩ "epic" none none).result
        = .error "Missing game identifier"
  ∧ mentions "Missing game identifier" "Epic" = false
  ∧ mentions "Missing game identifier" "Linux" = false :=
  ⟨rfl, by decide, by decide⟩

/-- C5 (amended): on Linux with platform `epic`, whenever an identifier is
supplied, `launch_game` fails with an error message mentioning "Epic" and
"Linux"; when neither identifier field is supplied it instead fails with the
missing-identifier error. -/
theorem epic_linux_error_with_identifier (env : SpawnEnv)
    (id app_name : Option String) (s : String)
    (hid : resolveIdentifier id app_name = some s) :
    (launch_game OS.linux env "epic" id app_name).result
        = .error "Epic Games not well supported on Linux"
  ∧ mentions "Epic Games not well supported on Linux" "Epic" = true
  ∧ mentions "Epic Games not well supported on Linux" "Linux" = true := by
  refine ⟨?_, by decide, by decide⟩
  rw [launch_game_some OS.linux env "epic" id app_name s hid]
  simp [launchBody]

/-- Witness for the amended C5 at `app_name = some "x"`. -/
theorem epic_linux_error_with_identifier_witness :
    (launch_game OS.linux ⟨none, 0⟩ "epic" none (some "x")).result
        = .error "Epic Games not well supported on Linux"
  ∧ mentions "Epic Games not well supported on Linux" "Epic" = true
  ∧ mentions "Epic Games not well supported on Linux" "Linux" = true :=
  epic_linux_error_with_identifier ⟨none, 0⟩ none (some "x") "x" rfl

/-- C6: for every supported (platform, OS) combination and identifier, the
call succeeds exactly when the spawn call succeeds; a spawn failure is
reported as an error wrapping the underlying OS message; exactly one spawn is
attempted; and the outcome of the spawned process (`processExit`) is never
consulted — fire-and-forget. -/
theorem launch_spawn_semantics (os : OS) (env : SpawnEnv) (platform s : String)
    (hsup : supportedCombo os platform = true) :
    (resultIsOk (launch_game os env platform none (some s)).result
        = env.spawnErr.isNone)
  ∧ (∀ e, env.spawnErr = some e →
      (launch_game os env platform none (some s)).result
        = .error ("Failed to start game: " ++ e))
  ∧ (env.spawnErr = none →
      (launch_game os env platform none (some s)).result
        = .ok ("Started " ++ platform ++ " game"))
  ∧ (launch_game os env platform none (some s)).spawned.length = 1
  ∧ (∀ x, launch_game os ⟨env.spawnErr, x⟩ platform none (some s)
        = launch_game os env platform none (some s)) := by
  cases os with
  | other => simp [supportedCombo] at hsup
  | linux =>
      simp only [supportedCombo, decide_eq_true_eq] at hsup
      subst hsup
      obtain ⟨e, x⟩ := env
      cases e <;>
        simp [launch_game, resolveIdentifier, Option.or, launchBody, spawnStep,
          resultIsOk]
  | windows =>
      simp only [supportedCombo, Bool.or_eq_true, decide_eq_true_eq] at hsup
      rcases hsup with (h | h) | h <;> subst h <;> obtain ⟨e, x⟩ := env <;>
        cases e <;>
        simp [launch_game, resolveIdentifier, Option.or, launchBody, spawnStep,
          resultIsOk]
  | macos =>
      simp only [supportedCombo, Bool.or_eq_true, decide_eq_true_eq] at hsup
      rcases hsup with (h | h) | h <;> subst h <;> obtain ⟨e, x⟩ := env <;>
        cases e <;>
        simp [launch_game, resolveIdentifier, Option.or, launchBody, spawnStep,
          resultIsOk]

/-- Witness for C6: on Windows/steam with a failing spawn, the error wraps
the OS message. -/
theorem launch_spawn_semantics_witness :
    (launch_game OS.windows ⟨some "boom", 0⟩ "steam" none (some "42")).result
      = .error ("Failed to start game: " ++ "boom") :=
  (launch_spawn_semantics OS.windows ⟨some "boom", 0⟩ "steam" "42"
    (by decide)).2.1 "boom" rfl

lemma startupScan_events (args : List String) :
    (startupScan args).events = (args.filter isDeepLink).take 1 := by
  unfold startupScan findDeepLink
  rw [find?_eq_head?_filter]
  cases args.filter isDeepLink with
  | nil => rfl
  | cons a t => rfl

lemma secondInstanceScan_events (args : List String) :
    (secondInstanceScan args).events = (args.filter isDeepLink).take 1 := by
  unfold secondInstanceScan findDeepLink
  rw [find?_eq_head?_filter]
  cases args.filter isDeepLink with
  | nil => rfl
  | cons a t => rfl

lemma deepLink_filter_ne_nil {args : List String}
    (h : ∃ a ∈ args, isDeepLink a = true) : args.filter isDeepLink ≠ [] := by
  intro hnil
  obtain ⟨a, ha, hpa⟩ := h
  exact (List.filter_eq_nil_iff.mp hnil a ha) hpa

lemma deepLink_filter_eq_nil {args : List String}
    (h : ∀ a ∈ args, isDeepLink a = false) : args.filter isDeepLink = [] :=
  List.filter_eq_nil_iff.mpr (fun a ha => by rw [h a ha]; exact Bool.false_ne_true)

/-- C7: at startup, when the argument list contains a matching deep-link
argument the Instance Guard emits exactly one event, carrying the first
matching argument verbatim; with no matching argument it emits no event; no
focus request is ever made at startup. -/
theorem instance_guard_startup_scan (args : List String) :
    (startupScan args).events = (args.filter isDeepLink).take 1
  ∧ ((∃ a ∈ args, isDeepLink a = true) → (startupScan args).events.length = 1)
  ∧ ((∀ a ∈ args, isDeepLink a = false) → (startupScan args).events = [])
  ∧ (startupScan args).focusRequests = 0 := by
  refine ⟨startupScan_events args, ?_, ?_, ?_⟩
  · intro h
    rw [startupScan_events args]
    rcases hf : args.filter isDeepLink with _ | ⟨a, t⟩
    · exact absurd hf (deepLink_filter_ne_nil h)
    · rfl
  · intro h
    rw [startupScan_events args, deepLink_filter_eq_nil h]
    rfl
  · unfold startupScan
    cases findDeepLink args <;> rfl

/-- Witness for C7: a list whose second argument is the first deep link. -/
theorem instance_guard_startup_scan_witness :
    (startupScan ["--flag", "aio://open/123", "aio://second"]).events
        = (["--flag", "aio://open/123", "aio://second"].filter isDeepLink).take 1
  ∧ (startupScan ["--flag", "aio://open/123", "aio://second"]).events.length = 1
  ∧ (startupScan ["--flag"]).events = [] :=
  ⟨(instance_guard_startup_scan _).1,
   (instance_guard_startup_scan _).2.1
     ⟨"aio://open/123", by decide, by decide⟩,
   (instance_guard_startup_scan _).2.2.1 (by decide)⟩

/-- C8: on a second-instance argument vector containing a matching deep-link
argument, the callback emits exactly one event (carrying the first matching
argument verbatim) and issues exactly one focus request on the main window;
with no matching argument, no event and no focus change occur. -/
theorem instance_guard_second_instance_scan (args : List String) :
    (secondInstanceScan args).events = (args.filter isDeepLink).take 1
  ∧ ((∃ a ∈ args, isDeepLink a = true) →
      (secondInstanceScan args).events.length = 1
      ∧ (secondInstanceScan args).focusRequests = 1)
  ∧ ((∀ a ∈ args, isDeepLink a = false) →
      (secondInstanceScan args).events = []
      ∧ (secondInstanceScan args).focusRequests = 0) := by
  refine ⟨secondInstanceScan_events args, ?_, ?_⟩
  · intro h
    constructor
    · rw [secondInstanceScan_events args]
      rcases hf : args.filter isDeepLink with _ | ⟨a, t⟩
      · exact absurd hf (deepLink_filter_ne_nil h)
      · rfl
    · unfold secondInstanceScan
      rcases hf : findDeepLink args with _ | a
      · unfold findDeepLink at hf
        rw [find?_eq_head?_filter] at hf
        rcases hg : args.filter isDeepLink with _ | ⟨b, t⟩
        · exact absurd hg (deepLink_filter_ne_nil h)
        · rw [hg] at hf
          exact absurd hf (by simp)
      · rfl
  · intro h
    have hnil : args.filter isDeepLink = [] := deepLink_filter_eq_nil h
    constructor
    · rw [secondInstanceScan_events args, hnil]
      rfl
    · unfold secondInstanceScan findDeepLink
      rw [find?_eq_head?_filter, hnil]
      rfl

/-- Witness for C8: a matching vector yields one event and one focus
request; a non-matching vector yields neither. -/
theorem instance_guard_second_instance_scan_witness :
    ((secondInstanceScan ["aio://resume"]).events.length = 1
      ∧ (secondInstanceScan ["aio://resume"]).focusRequests = 1)
  ∧ ((secondInstanceScan ["plain-arg"]).events = []
      ∧ (secondInstanceScan ["plain-arg"]).focusRequests = 0) :=
  ⟨(instance_guard_second_instance_scan _).2.1
     ⟨"aio://resume", by decide, by decide⟩,
   (instance_guard_second_instance_scan _).2.2 (by decide)⟩

/-- C9: the missing-identifier check precedes the platform check — with both
identifier fields absent, `launch_game` returns the missing-identifier error
for every platform tag (known or not) and never the unsupported-platform
error. -/
theorem missing_identifier_precedes_platform_check (os : OS) (env : SpawnEnv)
    (platform : String) :
    (launch_game os env platform none none).result
        = .error "Missing game identifier"
  ∧ (launch_game os env platform none none).result
        ≠ .error ("Unsupported platform: " ++ platform) := by
  refine ⟨rfl, ?_⟩
  intro h
  exact unsupported_msg_ne_missing platform (Except.error.inj h).symm

/-- Witness for C9 at the unknown platform tag `origin`. -/
theorem missing_identifier_precedes_platform_check_witness :
    (launch_game OS.windows ⟨none, 0⟩ "origin" none none).result
      = .error "Missing game identifier" :=
  (missing_identifier_precedes_platform_check OS.windows ⟨none, 0⟩ "origin").1

/-- C10: the empty string is accepted as an identifier — with
`app_name = some ""` the identifier resolves to `""`, the Windows steam URI
degenerates to `steam://rungameid/`, and no OS or platform yields the
missing-identifier error. -/
theorem empty_identifier_accepted (os : OS) (env : SpawnEnv)
    (platform : String) (id : Option String) :
    resolveIdentifier id (some "") = some ""
  ∧ (launch_game OS.windows env "steam" id (some "")).built
        = ["steam://rungameid/"]
  ∧ (launch_game os env platform id (some "")).result
        ≠ .error "Missing game identifier" := by
  refine ⟨rfl, ?_,
    launch_result_ne_missing os env platform id (some "") "" rfl⟩
  rw [launch_game_some OS.windows env "steam" id (some "") "" rfl]
  obtain ⟨e, x⟩ := env
  cases e <;> simp [launchBody, spawnStep]

/-- Witness for C10 on Windows/steam with spawn succeeding. -/
theorem empty_identifier_accepted_witness :
    (launch_game OS.windows ⟨none, 0⟩ "steam" none (some "")).built
      = ["steam://rungameid/"] :=
  (empty_identifier_accepted OS.windows ⟨none, 0⟩ "steam" none).2.1
